import Mathlib

/-!
Verification of the MSSQL MCP server (Foundry variant): a shallow embedding
of its connection manager, query-executor validation, session registry,
protocol router and access-guard middleware, with theorems settling the
specification claims against the code.
-/

set_option maxHeartbeats 1000000

/-! ## JavaScript value model

Arguments arrive as untyped JavaScript values; the executors test them with
JS truthiness (`!x`) and `typeof x !== 'string'`.  We model the values that
can appear in a JSON-decoded argument position. -/

inductive JsVal where
  | undef
  | nullv
  | boolv (b : Bool)
  | numv (n : Int)
  | strv (s : String)
  deriving DecidableEq, Repr

/-- JS truthiness of a value: `undefined`, `null`, `false`, `0` and the
empty string are falsy. -/
def jsTruthyVal : JsVal → Bool
  | JsVal.undef => false
  | JsVal.nullv => false
  | JsVal.boolv b => b
  | JsVal.numv n => n != 0
  | JsVal.strv s => s != ""

/-- `typeof x === 'string'`. -/
def isStringVal : JsVal → Bool
  | JsVal.strv _ => true
  | _ => false

/-- JS truthiness of an optional string (an absent header/field is
`undefined`, hence falsy; the empty string is falsy too). -/
def jsTruthy : Option String → Bool
  | some s => s != ""
  | none => false

/-- `a || b` on optional strings with JS short-circuit semantics: the result
is `a` when `a` is truthy, otherwise `b`. -/
def jsOr (a b : Option String) : Option String :=
  if jsTruthy a then a else b

/-- Character-list prefix test. -/
def isPrefixOfCL : List Char → List Char → Bool
  | [], _ => true
  | _ :: _, [] => false
  | a :: as, b :: bs => a = b && isPrefixOfCL as bs

/-- `s.startsWith(pre)`. -/
def jsStartsWith (s pre : String) : Bool :=
  isPrefixOfCL pre.data s.data

/-- `s.toUpperCase()` (ASCII, which covers the `SELECT` check). -/
def jsToUpper (s : String) : String :=
  String.mk (s.data.map Char.toUpper)

/-- `s.trim()`: strip leading and trailing whitespace. -/
def jsTrim (s : String) : String :=
  String.mk (((s.data.dropWhile Char.isWhitespace).reverse.dropWhile
    Char.isWhitespace).reverse)

/-- Remove the first occurrence of `pat` from a character list. -/
def replaceFirstCL (pat : List Char) : List Char → List Char
  | [] => []
  | c :: rest =>
      if isPrefixOfCL pat (c :: rest) then List.drop pat.length (c :: rest)
      else c :: replaceFirstCL pat rest

/-- `s.replace(pat, '')` for a string pattern: JavaScript `String.replace`
with a string first argument replaces only the first occurrence. -/
def jsReplaceFirst (s pat : String) : String :=
  String.mk (replaceFirstCL pat.data s.data)

/-! ## read_data validation (executeReadData / POST /api/read_data)

The executor first checks `!query || typeof query !== 'string'`, then
`!query.trim().toUpperCase().startsWith('SELECT')`; only a passing string is
handed verbatim to the database driver. -/

inductive ReadDataOutcome where
  | validationError (msg : String)
  | execute (q : String)
  deriving DecidableEq, Repr

/-- The validation prefix of `executeReadData` (identical in the REST
endpoint `POST /api/read_data`): rejects non-strings and strings whose
trimmed, upper-cased form does not start with `SELECT`; otherwise the
original string is executed verbatim. -/
def validateReadQuery (query : JsVal) : ReadDataOutcome :=
  if !jsTruthyVal query || !isStringVal query then
    ReadDataOutcome.validationError "Query is required and must be a string"
  else
    match query with
    | JsVal.strv s =>
        if jsStartsWith (jsToUpper (jsTrim s)) "SELECT" then ReadDataOutcome.execute s
        else ReadDataOutcome.validationError "Only SELECT queries are allowed"
    | _ => ReadDataOutcome.validationError "Query is required and must be a string"

/-! ## Session registry (the `transports` Map)

The server stores active SSE transports in a `Map<string, SSEServerTransport>`;
we model it as an association list keyed by session id, with `Map.get`,
`Map.set` (replace-in-place) and `Map.delete` (remove the entry, a no-op when
absent) semantics. -/

def mapGet {α : Type} (m : List (String × α)) (k : String) : Option α :=
  match m with
  | [] => none
  | (k0, v0) :: rest => if k0 = k then some v0 else mapGet rest k

def mapSet {α : Type} (m : List (String × α)) (k : String) (v : α) : List (String × α) :=
  match m with
  | [] => [(k, v)]
  | (k0, v0) :: rest => if k0 = k then (k, v) :: rest else (k0, v0) :: mapSet rest k v

def mapDelete {α : Type} (m : List (String × α)) (k : String) : List (String × α) :=
  match m with
  | [] => []
  | (k0, v0) :: rest => if k0 = k then rest else (k0, v0) :: mapDelete rest k

/-- Keys of the registry are pairwise distinct (a JS `Map` cannot hold two
entries with the same key). -/
def keysNodup {α : Type} (m : List (String × α)) : Prop :=
  (m.map Prod.fst).Nodup

/-! ## POST /sse : one-shot message submission

The handler reads the session identifier from the `x-mcp-session-id` header
with fallback to the `sessionId` query parameter (JS `||`), answers 400 when
the result is falsy, looks the id up in the transport map, answers 404 when
absent, and otherwise forwards the body to that transport.  The second
component of the result records every registry lookup performed. -/

inductive PostSseOut where
  | missingSessionId
  | sessionNotFound
  | forwarded (sid : String) (transport : Nat)
  deriving DecidableEq, Repr

def sessionIdOf (hdr qp : Option String) : Option String :=
  jsOr hdr qp

def handlePostSse (hdr qp : Option String) (transports : List (String × Nat)) :
    PostSseOut × List String :=
  match sessionIdOf hdr qp with
  | none => (PostSseOut.missingSessionId, [])
  | some sid =>
      if sid = "" then (PostSseOut.missingSessionId, [])
      else
        match mapGet transports sid with
        | none => (PostSseOut.sessionNotFound, [sid])
        | some t => (PostSseOut.forwarded sid t, [sid])

/-! ## Connection manager (ensureSqlConnection), sequential model

The globals are `globalSqlPool` (a pool object carrying a `connected` flag),
`globalAccessToken` and `globalTokenExpiresOn` (milliseconds).  A call first
evaluates the freshness conjunction
`pool && pool.connected && token && expiry && expiry > now + 2*60*1000`
and returns untouched when it holds; otherwise it fetches a fresh token,
overwrites the token and expiry globals, closes the old pool when it reports
connected (no try/catch: a close error propagates), and finally opens a new
pool and stores it.  The outcomes of the three effectful calls are supplied
by an environment, and the network calls made are recorded in a trace. -/

structure PoolRec where
  pid : Nat
  connected : Bool
  deriving DecidableEq, Repr

structure SqlGlobals where
  pool : Option PoolRec
  token : Option String
  expiry : Option Int
  deriving DecidableEq, Repr

structure TokenInfo where
  token : String
  expiresOn : Int
  deriving DecidableEq, Repr

inductive NetCall where
  | acquireToken
  | closePool (pid : Nat)
  | connectPool
  deriving DecidableEq, Repr

structure SeqEnv where
  tokenRes : Except String TokenInfo
  closeRes : Except String Unit
  connectRes : Except String Nat
  deriving Repr

/-- The guard of the early return: mirrors the JS conjunction
`globalSqlPool && globalSqlPool.connected && globalAccessToken &&
 globalTokenExpiresOn && globalTokenExpiresOn > new Date(Date.now() + 2*60*1000)`. -/
def tokenFresh (g : SqlGlobals) (now : Int) : Bool :=
  (match g.pool with | some p => p.connected | none => false) &&
  jsTruthy g.token &&
  (match g.expiry with | some e => decide (e > now + 2 * 60 * 1000) | none => false)

/-- Tail of the refresh: `globalSqlPool = await sql.connect(config)`. -/
def finishConnect (env : SeqEnv) (g : SqlGlobals) (tr : List NetCall) :
    Except String Unit × SqlGlobals × List NetCall :=
  match env.connectRes with
  | Except.error m => (Except.error m, g, tr ++ [NetCall.connectPool])
  | Except.ok pid =>
      (Except.ok (), { g with pool := some { pid := pid, connected := true } },
       tr ++ [NetCall.connectPool])

/-- `ensureSqlConnection`: returns the result (a thrown error propagates to
the caller), the new globals, and the trace of network calls made. -/
def ensureSqlConnection (env : SeqEnv) (now : Int) (g : SqlGlobals) :
    Except String Unit × SqlGlobals × List NetCall :=
  if tokenFresh g now then (Except.ok (), g, [])
  else
    match env.tokenRes with
    | Except.error m => (Except.error m, g, [NetCall.acquireToken])
    | Except.ok ti =>
        let g1 : SqlGlobals :=
          { g with token := some ti.token, expiry := some ti.expiresOn }
        match g1.pool with
        | some p =>
            if p.connected then
              match env.closeRes with
              | Except.error m =>
                  (Except.error m, g1, [NetCall.acquireToken, NetCall.closePool p.pid])
              | Except.ok _ =>
                  finishConnect env
                    { g1 with pool := some { p with connected := false } }
                    [NetCall.acquireToken, NetCall.closePool p.pid]
            else finishConnect env g1 [NetCall.acquireToken]
        | none => finishConnect env g1 [NetCall.acquireToken]

/-! ## Access guard (middleware/auth.ts and the server wiring)

`apiKeyAuth` skips the `/health` path and, when a key is configured,
extracts the presented credential from the `x-api-key` header, the
`Authorization` header with the first `Bearer ` occurrence stripped, or the
`apiKey` query parameter (JS `||` chain); `rateLimiter` keys its counters on
the `x-api-key` header or stripped `Authorization` header only, falling back
to the literal `'anonymous'`.  The server installs `apiKeyAuth` first and
`rateLimiter` after it when enabled. -/

structure HttpReq where
  path : String
  xApiKey : Option String
  authorization : Option String
  apiKeyQuery : Option String
  deriving DecidableEq, Repr

/-- Credential extraction in `apiKeyAuth`:
`req.headers['x-api-key'] || req.headers['authorization']?.replace('Bearer ', '') || req.query.apiKey`. -/
def requestKey (r : HttpReq) : Option String :=
  jsOr (jsOr r.xApiKey (r.authorization.map (fun s => jsReplaceFirst s "Bearer ")))
    r.apiKeyQuery

inductive AuthDecision where
  | next
  | unauthorized
  | forbidden
  deriving DecidableEq, Repr

/-- `apiKeyAuth` middleware. -/
def apiKeyAuth (cfgKey : Option String) (r : HttpReq) : AuthDecision :=
  if r.path = "/health" then AuthDecision.next
  else if !jsTruthy cfgKey then AuthDecision.next
  else
    match requestKey r with
    | none => AuthDecision.unauthorized
    | some s =>
        if s = "" then AuthDecision.unauthorized
        else if cfgKey = some s then AuthDecision.next
        else AuthDecision.forbidden

/-- Counting key of `rateLimiter`:
`req.headers['x-api-key'] || req.headers['authorization']?.replace('Bearer ', '') || 'anonymous'`
— note that the `apiKey` query parameter does not take part. -/
def rlKey (r : HttpReq) : String :=
  match jsOr r.xApiKey (r.authorization.map (fun s => jsReplaceFirst s "Bearer ")) with
  | some s => if s = "" then "anonymous" else s
  | none => "anonymous"

structure RlRecord where
  count : Nat
  resetTime : Int
  deriving DecidableEq, Repr

inductive RlDecision where
  | next
  | tooMany (retryAfter : Int)
  deriving DecidableEq, Repr

/-- One `rateLimiter` middleware invocation over the shared `requestCounts`
map; returns the decision and the updated map. -/
def rateLimiter (maxRequests : Nat) (windowMs : Int) (now : Int) (r : HttpReq)
    (counts : List (String × RlRecord)) : RlDecision × List (String × RlRecord) :=
  let key := rlKey r
  match mapGet counts key with
  | none =>
      (RlDecision.next, mapSet counts key { count := 1, resetTime := now + windowMs })
  | some rec =>
      if now > rec.resetTime then
        (RlDecision.next, mapSet counts key { count := 1, resetTime := now + windowMs })
      else if maxRequests ≤ rec.count then
        (RlDecision.tooMany ((rec.resetTime - now + 999) / 1000), counts)
      else
        (RlDecision.next,
         mapSet counts key { count := rec.count + 1, resetTime := rec.resetTime })

inductive GuardOutcome where
  | proceed
  | unauthorized
  | forbidden
  | rateLimited (retryAfter : Int)
  deriving DecidableEq, Repr

/-- The pipeline as wired in the server: middleware only installed when an
API key is configured; the rate limiter (when enabled) runs after the
credential check on every request the credential check passes through —
including `/health`. -/
def accessGuard (cfgKey : Option String) (rlEnabled : Bool) (maxRequests : Nat)
    (windowMs : Int) (now : Int) (r : HttpReq) (counts : List (String × RlRecord)) :
    GuardOutcome × List (String × RlRecord) :=
  if !jsTruthy cfgKey then (GuardOutcome.proceed, counts)
  else
    match apiKeyAuth cfgKey r with
    | AuthDecision.unauthorized => (GuardOutcome.unauthorized, counts)
    | AuthDecision.forbidden => (GuardOutcome.forbidden, counts)
    | AuthDecision.next =>
        if rlEnabled then
          match rateLimiter maxRequests windowMs now r counts with
          | (RlDecision.next, c) => (GuardOutcome.proceed, c)
          | (RlDecision.tooMany ra, c) => (GuardOutcome.rateLimited ra, c)
        else (GuardOutcome.proceed, counts)

/-! ## Connection manager, interleaved model

Node's event loop interleaves concurrent `ensureSqlConnection` calls at the
`await` points (token fetch, pool close, pool open).  A `World` carries the
three globals plus every pool object ever created (with its current
`connected` flag); a `Thread` is one in-flight call, its program counter
naming the `await` it is suspended on.  `stepThread` runs one synchronous
block of one thread: the code between the completion of one awaited call and
the start of the next.  `closes` logs the pool id of every `close()`
invocation at the moment the call is issued: the
`if (globalSqlPool && globalSqlPool.connected)` check and the `close()` call
sit in one synchronous block, while the pool reports disconnected only once
the awaited close resolves.  All network calls succeed in this model (each
thread carries the token it will receive); failures are treated in the
sequential model above. -/

structure World where
  pool : Option Nat
  token : Option String
  expiry : Option Int
  pools : List PoolRec
  nextId : Nat
  closes : List Nat
  deriving DecidableEq, Repr

inductive TPc where
  | start
  | awaitToken
  | awaitClose (pid : Nat)
  | awaitConnect
  | done
  deriving DecidableEq, Repr

structure ThreadEnv where
  token : String
  expiresOn : Int
  deriving DecidableEq, Repr

structure Thread where
  pc : TPc
  env : ThreadEnv
  deriving DecidableEq, Repr

/-- Connectivity of the pool object with a given id among the objects
created so far. -/
def connectedIn (l : List PoolRec) (pid : Nat) : Bool :=
  match l.find? (fun p => p.pid == pid) with
  | some p => p.connected
  | none => false

/-- Reading `globalSqlPool.connected` dereferences the pool object the
global currently points to. -/
def connectedOf (w : World) (pid : Nat) : Bool :=
  connectedIn w.pools pid

/-- The freshness guard evaluated against the world's globals. -/
def freshCheckW (w : World) (now : Int) : Bool :=
  (match w.pool with | some pid => connectedOf w pid | none => false) &&
  jsTruthy w.token &&
  (match w.expiry with | some e => decide (e > now + 2 * 60 * 1000) | none => false)

/-- `await pool.close()` resolving marks that pool object disconnected. -/
def closeUpdate (pid : Nat) (p : PoolRec) : PoolRec :=
  if p.pid = pid then { p with connected := false } else p

def setDisconnected (w : World) (pid : Nat) : World :=
  { w with pools := w.pools.map (closeUpdate pid) }

/-- `await sql.connect(config)` resolving creates a fresh live pool object. -/
def allocPool (w : World) : Nat × World :=
  (w.nextId,
   { w with pools := { pid := w.nextId, connected := true } :: w.pools, nextId := w.nextId + 1 })

/-- Advance one thread through its next synchronous block. -/
def stepThread (now : Int) (w : World) (t : Thread) : World × Thread :=
  match t.pc with
  | TPc.start =>
      if freshCheckW w now then (w, { t with pc := TPc.done })
      else (w, { t with pc := TPc.awaitToken })
  | TPc.awaitToken =>
      let w1 := { w with token := some t.env.token, expiry := some t.env.expiresOn }
      match w1.pool with
      | some pid =>
          if connectedOf w1 pid then
            ({ w1 with closes := pid :: w1.closes }, { t with pc := TPc.awaitClose pid })
          else (w1, { t with pc := TPc.awaitConnect })
      | none => (w1, { t with pc := TPc.awaitConnect })
  | TPc.awaitClose pid =>
      (setDisconnected w pid, { t with pc := TPc.awaitConnect })
  | TPc.awaitConnect =>
      let (pid, w1) := allocPool w
      ({ w1 with pool := some pid }, { t with pc := TPc.done })
  | TPc.done => (w, t)

/-- Run two threads under a schedule: `true` steps the first thread,
`false` the second. -/
def run2 (now : Int) : List Bool → World × Thread × Thread → World × Thread × Thread
  | [], s => s
  | b :: rest, (w, a, c) =>
      if b then
        let (w1, a1) := stepThread now w a
        run2 now rest (w1, a1, c)
      else
        let (w1, c1) := stepThread now w c
        run2 now rest (w1, a, c1)

/-- Number of simultaneously live (connected) pool objects. -/
def liveCount (w : World) : Nat :=
  (w.pools.filter (fun p => p.connected)).length

/-! ## MCP call-tool handler (Protocol Router)

The `CallToolRequestSchema` handler wraps connection acquisition and the
executor dispatch in one try/catch; a thrown error becomes an
`isError`-flagged text result, and an unknown tool name returns an
`isError`-flagged result directly.  The handler itself is total: nothing
escapes to the transport. -/

/-- A single-quote character, used when interpolating schema names as SQL
literals. -/
def sqlQuote : String :=
  Char.toString (Char.ofNat 39)

structure ToolResult where
  success : Bool
  message : String
  rows : List String
  rowCount : Nat
  deriving DecidableEq, Repr

/-- `executeReadData`: validation followed by verbatim execution. -/
def executeReadDataE (runQuery : String → Except String (List String))
    (query : JsVal) : Except String ToolResult :=
  match validateReadQuery query with
  | ReadDataOutcome.validationError m => Except.error m
  | ReadDataOutcome.execute q =>
      match runQuery q with
      | Except.error m => Except.error m
      | Except.ok rs =>
          Except.ok
            { success := true,
              message := "Retrieved " ++ toString rs.length ++ " record(s)",
              rows := rs, rowCount := rs.length }

/-- `executeListTable`: optional schema filter interpolated as quoted
literals into the catalog query. -/
def executeListTableE (runQuery : String → Except String (List String))
    (parameters : Option (List String)) : Except String ToolResult :=
  let schemaFilter :=
    match parameters with
    | some ps =>
        if ps.length > 0 then
          "AND TABLE_SCHEMA IN (" ++
            String.intercalate ", " (ps.map (fun p => sqlQuote ++ p ++ sqlQuote)) ++ ")"
        else ""
    | none => ""
  let query :=
    "SELECT TABLE_SCHEMA + " ++ sqlQuote ++ "." ++ sqlQuote ++
      " + TABLE_NAME as [table] FROM INFORMATION_SCHEMA.TABLES WHERE TABLE_TYPE = " ++
      sqlQuote ++ "BASE TABLE" ++ sqlQuote ++ " " ++ schemaFilter ++
      " ORDER BY TABLE_SCHEMA, TABLE_NAME"
  match runQuery query with
  | Except.error m => Except.error m
  | Except.ok rs =>
      Except.ok
        { success := true, message := "List tables executed successfully",
          rows := rs, rowCount := rs.length }

/-- `executeDescribeTable`: rejects a missing or non-string table name, then
runs the parameterized catalog lookup (the table name is bound, modelled by
keying the lookup on it). -/
def executeDescribeTableE (runDescribe : String → Except String (List String))
    (tableName : JsVal) : Except String ToolResult :=
  if !jsTruthyVal tableName || !isStringVal tableName then
    Except.error "tableName is required and must be a string"
  else
    match tableName with
    | JsVal.strv tn =>
        match runDescribe tn with
        | Except.error m => Except.error m
        | Except.ok rs =>
            Except.ok
              { success := true, message := tn, rows := rs, rowCount := rs.length }
    | _ => Except.error "tableName is required and must be a string"

structure CallEnv where
  ensure : Except String Unit
  runQuery : String → Except String (List String)
  runDescribe : String → Except String (List String)

structure ToolArgs where
  query : JsVal
  tableName : JsVal
  parameters : Option (List String)
  deriving Repr

inductive BodyOut where
  | result (r : ToolResult)
  | unknownTool (name : String)
  deriving DecidableEq, Repr

/-- The try-block of the handler: `ensureSqlConnection` then the switch on
the tool name.  The unknown-name arm returns a value rather than throwing. -/
def callToolBody (env : CallEnv) (name : String) (args : ToolArgs) :
    Except String BodyOut :=
  match env.ensure with
  | Except.error m => Except.error m
  | Except.ok _ =>
      if name = "read_data" then
        (executeReadDataE env.runQuery args.query).map BodyOut.result
      else if name = "list_table" then
        (executeListTableE env.runQuery args.parameters).map BodyOut.result
      else if name = "describe_table" then
        (executeDescribeTableE env.runDescribe args.tableName).map BodyOut.result
      else Except.ok (BodyOut.unknownTool name)

structure CallToolResponse where
  text : String
  isError : Bool
  deriving DecidableEq, Repr

/-- Rendering of a successful result into the text content
(JSON.stringify abstracted to the envelope's message and count). -/
def renderToolResult (r : ToolResult) : String :=
  r.message ++ " [" ++ toString r.rowCount ++ "]"

/-- The whole handler: total — every thrown error is caught and converted
into an error-flagged response, so nothing reaches the transport layer. -/
def handleCallTool (env : CallEnv) (name : String) (args : ToolArgs) :
    CallToolResponse :=
  match callToolBody env name args with
  | Except.ok (BodyOut.result r) => { text := renderToolResult r, isError := false }
  | Except.ok (BodyOut.unknownTool n) =>
      { text := "Unknown tool: " ++ n, isError := true }
  | Except.error m => { text := "Error: " ++ m, isError := true }

/-! ## Helper lemmas -/

theorem mapGet_eq_none {α : Type} (m : List (String × α)) (k : String)
    (h : k ∉ m.map Prod.fst) : mapGet m k = none := by
  induction m with
  | nil => rfl
  | cons hd tl ih =>
      obtain ⟨k0, v0⟩ := hd
      simp only [List.map_cons, List.mem_cons] at h
      push_neg at h
      rw [mapGet, if_neg (fun hh => h.1 hh.symm)]
      exact ih h.2

theorem mapGet_mapDelete_mapSet_self {α : Type} (m : List (String × α)) (k : String)
    (v : α) (h : keysNodup m) : mapGet (mapDelete (mapSet m k v) k) k = none := by
  induction m with
  | nil => simp [mapSet, mapDelete, mapGet]
  | cons hd tl ih =>
      obtain ⟨k0, v0⟩ := hd
      simp only [keysNodup, List.map_cons, List.nodup_cons] at h
      by_cases hk : k0 = k
      · subst hk
        rw [mapSet, if_pos rfl, mapDelete, if_pos rfl]
        exact mapGet_eq_none tl k0 h.1
      · rw [mapSet, if_neg hk, mapDelete, if_neg hk, mapGet, if_neg hk]
        exact ih h.2

theorem mapDelete_absent {α : Type} (m : List (String × α)) (k : String)
    (h : mapGet m k = none) : mapDelete m k = m := by
  induction m with
  | nil => rfl
  | cons hd tl ih =>
      obtain ⟨k0, v0⟩ := hd
      by_cases hk : k0 = k
      · rw [mapGet, if_pos hk] at h
        exact absurd h (by simp)
      · rw [mapGet, if_neg hk] at h
        rw [mapDelete, if_neg hk, ih h]

/-! ## Invariants of the interleaved connection-manager model -/

/-- World-level invariant: every live pool object is the one the global
points to, pool ids are pairwise distinct, and ids are below the allocation
counter. -/
def WInvP (w : World) : Prop :=
  (∀ p ∈ w.pools, p.connected = true → w.pool = some p.pid) ∧
  (w.pools.map PoolRec.pid).Nodup ∧
  (∀ p ∈ w.pools, p.pid < w.nextId)

/-- Thread-aware invariant: the close log has no duplicates (no handle was
ever closed twice), logged ids are below the allocation counter, every
logged pool already reports disconnected except the one close the thread is
currently awaiting, a thread about to connect has no live pool left, and a
thread closing closes the pool the global points to. -/
def TInvP (w : World) (t : Thread) : Prop :=
  WInvP w ∧
  w.closes.Nodup ∧
  (∀ c ∈ w.closes, c < w.nextId) ∧
  (∀ c ∈ w.closes, connectedIn w.pools c = false ∨ t.pc = TPc.awaitClose c) ∧
  (match t.pc with
   | TPc.awaitConnect => ∀ p ∈ w.pools, p.connected = false
   | TPc.awaitClose pid => w.pool = some pid
   | _ => True)

theorem closeUpdate_pid (pid : Nat) (p : PoolRec) :
    (closeUpdate pid p).pid = p.pid := by
  unfold closeUpdate
  split <;> rfl

theorem connectedIn_of_mem (l : List PoolRec) (hnd : (l.map PoolRec.pid).Nodup)
    (p : PoolRec) (hmem : p ∈ l) : connectedIn l p.pid = p.connected := by
  induction l with
  | nil => cases hmem
  | cons hd tl ih =>
      simp only [List.map_cons, List.nodup_cons] at hnd
      rcases List.mem_cons.mp hmem with h | h
      · subst h
        simp [connectedIn, List.find?]
      · have hne : (hd.pid == p.pid) = false := by
          simp only [beq_eq_false_iff_ne]
          intro he
          exact hnd.1 (by rw [he]; exact List.mem_map_of_mem PoolRec.pid h)
        simp only [connectedIn, List.find?, hne]
        exact ih hnd.2 h

theorem map_pid_closeUpdate (pid : Nat) (l : List PoolRec) :
    (l.map (closeUpdate pid)).map PoolRec.pid = l.map PoolRec.pid := by
  induction l with
  | nil => rfl
  | cons hd tl ih =>
      simp only [List.map_cons]
      rw [closeUpdate_pid, ih]

theorem find?_pid_eq (l : List PoolRec) (pid : Nat) (q : PoolRec)
    (hf : List.find? (fun p => p.pid == pid) l = some q) : q.pid = pid := by
  induction l with
  | nil => exact Option.noConfusion hf
  | cons hd tl ih =>
      rcases List.find?_cons_eq_some.mp hf with ⟨hp, he⟩ | ⟨_, hrest⟩
      · exact he ▸ beq_iff_eq.mp hp
      · exact ih hrest

theorem connectedIn_exists (l : List PoolRec) (pid : Nat)
    (h : connectedIn l pid = true) :
    ∃ p, p ∈ l ∧ p.pid = pid ∧ p.connected = true := by
  unfold connectedIn at h
  cases hf : l.find? (fun p => p.pid == pid) with
  | none =>
      rw [hf] at h
      exact Bool.noConfusion h
  | some q =>
      rw [hf] at h
      exact ⟨q, List.mem_of_find?_eq_some hf, find?_pid_eq l pid q hf, h⟩

theorem connectedIn_cons_ne (p : PoolRec) (l : List PoolRec) (c : Nat)
    (h : p.pid ≠ c) : connectedIn (p :: l) c = connectedIn l c := by
  have hb : (p.pid == c) = false := by simp [h]
  simp [connectedIn, List.find?, hb]

theorem connectedIn_setDisconnected_self (l : List PoolRec) (pid : Nat) :
    connectedIn (l.map (closeUpdate pid)) pid = false := by
  induction l with
  | nil => rfl
  | cons hd tl ih =>
      by_cases he : hd.pid = pid
      · simp [connectedIn, List.find?, closeUpdate, he]
      · have hb : ((closeUpdate pid hd).pid == pid) = false := by
          rw [closeUpdate_pid]
          simp [he]
        simp only [List.map_cons, connectedIn, List.find?, hb]
        exact ih

theorem connectedIn_setDisconnected_false (l : List PoolRec) (pid c : Nat)
    (h : connectedIn l c = false) :
    connectedIn (l.map (closeUpdate pid)) c = false := by
  induction l with
  | nil => rfl
  | cons hd tl ih =>
      by_cases he : hd.pid = c
      · have hb : (hd.pid == c) = true := by simp [he]
        have hbu : ((closeUpdate pid hd).pid == c) = true := by
          rw [closeUpdate_pid]
          exact hb
        simp only [connectedIn, List.find?, hb] at h
        simp only [List.map_cons, connectedIn, List.find?, hbu]
        unfold closeUpdate
        split
        · rfl
        · exact h
      · have hb : (hd.pid == c) = false := by simp [he]
        have hbu : ((closeUpdate pid hd).pid == c) = false := by
          rw [closeUpdate_pid]
          exact hb
        simp only [connectedIn, List.find?, hb] at h
        simp only [List.map_cons, connectedIn, List.find?, hbu]
        exact ih h

/-- One synchronous block of one acquisition call preserves the thread-aware
invariant, when no other thread runs in between. -/
theorem stepThread_TInv (now : Int) (w : World) (t : Thread) (h : TInvP w t) :
    TInvP (stepThread now w t).1 (stepThread now w t).2 := by
  obtain ⟨pc, env⟩ := t
  obtain ⟨⟨hlive, hnd, hbound⟩, hcnd, hcb, hcd, hpc⟩ := h
  cases pc with
  | start =>
      cases hf : freshCheckW w now <;>
        · simp only [stepThread, hf, Bool.false_eq_true, if_false, if_true]
          refine ⟨⟨hlive, hnd, hbound⟩, hcnd, hcb, ?_, trivial⟩
          intro c hc
          rcases hcd c hc with hd | hd
          · exact Or.inl hd
          · simp at hd
  | awaitToken =>
      cases hgp : w.pool with
      | none =>
          simp only [stepThread, hgp]
          refine ⟨⟨?_, hnd, hbound⟩, hcnd, hcb, ?_, ?_⟩
          · intro p hp hc
            have h1 := hlive p hp hc
            rw [hgp] at h1
            exact h1
          · intro c hc
            rcases hcd c hc with hd | hd
            · exact Or.inl hd
            · simp at hd
          · intro p hp
            cases hc : p.connected
            · rfl
            · have h1 := hlive p hp hc
              rw [hgp] at h1
              exact Option.noConfusion h1
      | some pid =>
          cases hci : connectedIn w.pools pid
          · simp only [stepThread, hgp, connectedOf, hci, Bool.false_eq_true, if_false]
            refine ⟨⟨?_, hnd, hbound⟩, hcnd, hcb, ?_, ?_⟩
            · intro p hp hc
              have h1 := hlive p hp hc
              rw [hgp] at h1
              exact h1
            · intro c hc
              rcases hcd c hc with hd | hd
              · exact Or.inl hd
              · simp at hd
            · intro p hp
              cases hc : p.connected
              · rfl
              · have h1 := hlive p hp hc
                rw [hgp] at h1
                have h2 : pid = p.pid := Option.some.inj h1
                have h3 := connectedIn_of_mem w.pools hnd p hp
                rw [← h2, hci, hc] at h3
                exact Bool.noConfusion h3
          · simp only [stepThread, hgp, connectedOf, hci, if_true]
            have hnotin : pid ∉ w.closes := by
              intro hmem
              rcases hcd pid hmem with hd | hd
              · rw [hci] at hd
                exact Bool.noConfusion hd
              · simp at hd
            obtain ⟨p0, hp0mem, hp0pid, _⟩ := connectedIn_exists w.pools pid hci
            refine ⟨⟨?_, hnd, hbound⟩, ?_, ?_, ?_, rfl⟩
            · intro p hp hc
              have h1 := hlive p hp hc
              rw [hgp] at h1
              exact h1
            · rw [List.nodup_cons]
              exact ⟨hnotin, hcnd⟩
            · intro c hc
              rcases List.mem_cons.mp hc with hc1 | hc1
              · subst hc1
                rw [← hp0pid]
                exact hbound p0 hp0mem
              · exact hcb c hc1
            · intro c hc
              rcases List.mem_cons.mp hc with hc1 | hc1
              · subst hc1
                exact Or.inr rfl
              · rcases hcd c hc1 with hd | hd
                · exact Or.inl hd
                · simp at hd
  | awaitClose pid =>
      have hnl : ∀ q ∈ (setDisconnected w pid).pools, q.connected = false := by
        intro q hq
        simp only [setDisconnected, List.mem_map] at hq
        obtain ⟨p, hp, rfl⟩ := hq
        unfold closeUpdate
        by_cases hpe : p.pid = pid
        · simp [hpe]
        · simp only [hpe, if_false]
          cases hc : p.connected
          · rfl
          · have h1 := hlive p hp hc
            rw [hpc] at h1
            exact absurd (Option.some.inj h1).symm hpe
      refine ⟨⟨?_, ?_, ?_⟩, hcnd, hcb, ?_, ?_⟩
      · intro q hq hqc
        rw [hnl q hq] at hqc
        exact Bool.noConfusion hqc
      · show ((w.pools.map (closeUpdate pid)).map PoolRec.pid).Nodup
        rw [map_pid_closeUpdate]
        exact hnd
      · intro q hq
        simp only [stepThread, setDisconnected, List.mem_map] at hq
        obtain ⟨p, hp, rfl⟩ := hq
        show (closeUpdate pid p).pid < w.nextId
        rw [closeUpdate_pid]
        exact hbound p hp
      · intro c hc
        rcases hcd c hc with hd | hd
        · exact Or.inl (connectedIn_setDisconnected_false w.pools pid c hd)
        · have hpe : pid = c := by injection hd
          subst hpe
          exact Or.inl (connectedIn_setDisconnected_self w.pools pid)
      · exact hnl
  | awaitConnect =>
      refine ⟨⟨?_, ?_, ?_⟩, hcnd, ?_, ?_, trivial⟩
      · intro q hq hqc
        rcases List.mem_cons.mp hq with h | h
        · subst h; rfl
        · rw [hpc q h] at hqc
          exact Bool.noConfusion hqc
      · show (({ pid := w.nextId, connected := true } :: w.pools).map PoolRec.pid).Nodup
        simp only [List.map_cons]
        rw [List.nodup_cons]
        refine ⟨?_, hnd⟩
        intro hmem
        simp only [List.mem_map] at hmem
        obtain ⟨p, hp, hpid⟩ := hmem
        have hb := hbound p hp
        rw [hpid] at hb
        exact lt_irrefl _ hb
      · intro q hq
        rcases List.mem_cons.mp hq with h | h
        · subst h
          exact Nat.lt_succ_self _
        · exact Nat.lt_succ_of_lt (hbound q h)
      · intro c hc
        exact Nat.lt_succ_of_lt (hcb c hc)
      · intro c hc
        have hne : ({ pid := w.nextId, connected := true } : PoolRec).pid ≠ c :=
          ne_of_gt (hcb c hc)
        rcases hcd c hc with hd | hd
        · exact Or.inl ((connectedIn_cons_ne { pid := w.nextId, connected := true }
            w.pools c hne).trans hd)
        · simp at hd
  | done => exact ⟨⟨hlive, hnd, hbound⟩, hcnd, hcb, hcd, trivial⟩

/-- The world invariant forbids two distinct simultaneously live pools. -/
theorem WInvP_single_live (w : World) (h : WInvP w) :
    ∀ p ∈ w.pools, ∀ q ∈ w.pools,
      p.connected = true → q.connected = true → p = q := by
  obtain ⟨hlive, hnd, _⟩ := h
  intro p hp q hq hpc hqc
  have h1 := hlive p hp hpc
  have h2 := hlive q hq hqc
  rw [h1] at h2
  exact List.inj_on_of_nodup_map hnd hp hq (Option.some.inj h2)

/-! ## Claim theorems -/

/-- C1: an input to the read-query executor whose `query` is absent, not a
string, or a string whose trimmed, upper-cased form does not start with
`SELECT` is rejected with a validation error before any database call; a
string that does start with `SELECT` after trimming and case-normalizing
passes validation and is executed verbatim. -/
theorem C1_read_query_select_gate (v : JsVal) :
    ((∀ s, v = JsVal.strv s → jsStartsWith (jsToUpper (jsTrim s)) "SELECT" = false) →
       ∃ msg, validateReadQuery v = ReadDataOutcome.validationError msg) ∧
    (∀ s, v = JsVal.strv s → jsStartsWith (jsToUpper (jsTrim s)) "SELECT" = true →
       validateReadQuery v = ReadDataOutcome.execute s) := by
  constructor
  · intro h
    cases v with
    | undef => exact ⟨_, rfl⟩
    | nullv => exact ⟨_, rfl⟩
    | boolv b => cases b <;> exact ⟨_, rfl⟩
    | numv n =>
        exact ⟨"Query is required and must be a string",
          by simp [validateReadQuery, isStringVal]⟩
    | strv s =>
        by_cases hs : s = ""
        · subst hs; exact ⟨_, rfl⟩
        · exact ⟨"Only SELECT queries are allowed",
            by simp [validateReadQuery, jsTruthyVal, isStringVal, hs, h s rfl]⟩
  · intro s hv hsel
    subst hv
    have hs : s ≠ "" := by
      intro hempty
      subst hempty
      exact absurd hsel (by decide)
    simp [validateReadQuery, jsTruthyVal, isStringVal, hs, hsel]

/-- C1 witness: a mixed-case SELECT passes and runs verbatim; a non-string
and a non-SELECT string are rejected. -/
theorem C1_read_query_select_gate_witness :
    validateReadQuery (JsVal.strv " sElEcT 1 ") = ReadDataOutcome.execute " sElEcT 1 " ∧
    (∃ msg, validateReadQuery (JsVal.numv 0) = ReadDataOutcome.validationError msg) ∧
    (∃ msg, validateReadQuery (JsVal.strv "DROP TABLE t") =
      ReadDataOutcome.validationError msg) :=
  ⟨(C1_read_query_select_gate (JsVal.strv " sElEcT 1 ")).2 " sElEcT 1 " rfl (by decide),
   (C1_read_query_select_gate (JsVal.numv 0)).1 (fun s h => JsVal.noConfusion h),
   (C1_read_query_select_gate (JsVal.strv "DROP TABLE t")).1
     (by intro s h; injection h with h1; subst h1; decide)⟩

/-- C2: when a pool exists and reports connected, a token is stored, and the
stored expiry is more than the 2-minute margin in the future, the acquire
call returns immediately with the shared state unchanged and an empty
network-call trace. -/
theorem C2_acquire_idempotent_under_validity (env : SeqEnv) (now : Int)
    (g : SqlGlobals) (p : PoolRec) (e : Int) (hp : g.pool = some p)
    (hc : p.connected = true) (ht : jsTruthy g.token = true)
    (he : g.expiry = some e) (hm : e > now + 2 * 60 * 1000) :
    ensureSqlConnection env now g = (Except.ok (), g, []) := by
  have hf : tokenFresh g now = true := by
    simp [tokenFresh, hp, hc, ht, he]
    omega
  simp [ensureSqlConnection, hf]

/-- C2 witness: a connected pool with a token valid for well over two
minutes is returned unchanged even though every network call would fail. -/
theorem C2_acquire_idempotent_under_validity_witness :
    ensureSqlConnection
      { tokenRes := Except.error "a", closeRes := Except.error "b",
        connectRes := Except.error "c" } 0
      { pool := some { pid := 0, connected := true }, token := some "tok",
        expiry := some 1000000 } =
    (Except.ok (),
     { pool := some { pid := 0, connected := true }, token := some "tok",
       expiry := some 1000000 }, []) :=
  C2_acquire_idempotent_under_validity
    { tokenRes := Except.error "a", closeRes := Except.error "b",
      connectRes := Except.error "c" } 0
    { pool := some { pid := 0, connected := true }, token := some "tok",
      expiry := some 1000000 }
    { pid := 0, connected := true } 1000000 rfl rfl (by decide) rfl (by decide)

/-- C7: the submission endpoint answers 400 with no registry lookup when the
extracted session identifier is falsy (both carriers absent or empty),
answers 404 after one failed lookup when the identifier does not resolve,
and forwards to the resolved transport otherwise. -/
theorem C7_post_sse_session_resolution (hdr qp : Option String)
    (reg : List (String × Nat)) :
    (jsTruthy (sessionIdOf hdr qp) = false →
       handlePostSse hdr qp reg = (PostSseOut.missingSessionId, [])) ∧
    (∀ sid, sessionIdOf hdr qp = some sid → sid ≠ "" → mapGet reg sid = none →
       handlePostSse hdr qp reg = (PostSseOut.sessionNotFound, [sid])) ∧
    (∀ sid t, sessionIdOf hdr qp = some sid → sid ≠ "" → mapGet reg sid = some t →
       handlePostSse hdr qp reg = (PostSseOut.forwarded sid t, [sid])) := by
  refine ⟨?_, ?_, ?_⟩
  · intro hfalse
    cases hs : sessionIdOf hdr qp with
    | none => simp [handlePostSse, hs]
    | some sid =>
        rw [hs] at hfalse
        simp [jsTruthy] at hfalse
        simp [handlePostSse, hs, hfalse]
  · intro sid hs hne hget
    simp [handlePostSse, hs, hne, hget]
  · intro sid t hs hne hget
    simp [handlePostSse, hs, hne, hget]

/-- C7 witness: concrete requests exercising all three arms against the
registry holding one session `s1`. -/
theorem C7_post_sse_session_resolution_witness :
    handlePostSse none none [("s1", 5)] = (PostSseOut.missingSessionId, []) ∧
    handlePostSse (some "nope") none [("s1", 5)] = (PostSseOut.sessionNotFound, ["nope"]) ∧
    handlePostSse none (some "s1") [("s1", 5)] = (PostSseOut.forwarded "s1" 5, ["s1"]) :=
  ⟨(C7_post_sse_session_resolution none none [("s1", 5)]).1 (by decide),
   (C7_post_sse_session_resolution (some "nope") none [("s1", 5)]).2.1 "nope"
     (by decide) (by decide) (by decide),
   (C7_post_sse_session_resolution none (some "s1") [("s1", 5)]).2.2 "s1" 5
     (by decide) (by decide) (by decide)⟩

/-- C8: closing a created session removes its identifier from the registry
(a subsequent `get` finds nothing), and removing an identifier that is
already absent leaves the registry exactly as it was. -/
theorem C8_registry_remove_idempotent (m : List (String × Nat)) (sid k : String)
    (t : Nat) (h : keysNodup m) :
    mapGet (mapDelete (mapSet m sid t) sid) sid = none ∧
    (mapGet m k = none → mapDelete m k = m) :=
  ⟨mapGet_mapDelete_mapSet_self m sid t h, mapDelete_absent m k⟩

/-- C8 witness: register then close session `b` in a registry holding `a`;
removing the absent key `zz` is a no-op. -/
theorem C8_registry_remove_idempotent_witness :
    mapGet (mapDelete (mapSet [("a", 1)] "b" 9) "b") "b" = none ∧
    mapDelete [("a", (1 : Nat))] "zz" = [("a", 1)] :=
  ⟨(C8_registry_remove_idempotent [("a", 1)] "b" "zz" 9 (by simp [keysNodup])).1,
   (C8_registry_remove_idempotent [("a", 1)] "b" "zz" 9 (by simp [keysNodup])).2
     (by decide)⟩

/-- C4 counterexample: a `/health` request with rate limiting enabled is
answered RateLimited when the anonymous window is exhausted, and a fresh
`/health` request is counted against the anonymous window — the rate-limiter
stage is not skipped for the health-check path. -/
theorem C4_health_not_exempt_counterexample :
    (accessGuard (some "secret") true 1 60000 0
      { path := "/health", xApiKey := none, authorization := none,
        apiKeyQuery := none }
      [("anonymous", { count := 1, resetTime := 50000 })]).1 =
      GuardOutcome.rateLimited 50 ∧
    (accessGuard (some "secret") true 100 60000 0
      { path := "/health", xApiKey := none, authorization := none,
        apiKeyQuery := none } []).2 =
      [("anonymous", { count := 1, resetTime := 60000 })] := by
  decide

/-- C4 amended: the health-check path bypasses only the credential check —
it can never be answered Unauthorized or Forbidden — but when rate limiting
is enabled the request passes through the rate limiter exactly like any
other request: it is counted against its key's window and can be answered
RateLimited. -/
theorem C4_health_skips_auth_only (cfgKey : Option String) (rlEnabled : Bool)
    (maxRequests : Nat) (windowMs now : Int) (r : HttpReq)
    (counts : List (String × RlRecord)) (hpath : r.path = "/health") :
    (accessGuard cfgKey rlEnabled maxRequests windowMs now r counts).1 ≠
      GuardOutcome.unauthorized ∧
    (accessGuard cfgKey rlEnabled maxRequests windowMs now r counts).1 ≠
      GuardOutcome.forbidden ∧
    (jsTruthy cfgKey = true → rlEnabled = true →
       accessGuard cfgKey rlEnabled maxRequests windowMs now r counts =
         (match rateLimiter maxRequests windowMs now r counts with
          | (RlDecision.next, c) => (GuardOutcome.proceed, c)
          | (RlDecision.tooMany ra, c) => (GuardOutcome.rateLimited ra, c))) := by
  have hauth : apiKeyAuth cfgKey r = AuthDecision.next := by
    simp [apiKeyAuth, hpath]
  by_cases hcfg : jsTruthy cfgKey = true
  · refine ⟨?_, ?_, ?_⟩
    · cases hrl : rlEnabled
      · simp [accessGuard, hcfg, hauth, hrl]
      · rcases hlim : rateLimiter maxRequests windowMs now r counts with ⟨d, c⟩
        cases d <;> simp [accessGuard, hcfg, hauth, hrl, hlim]
    · cases hrl : rlEnabled
      · simp [accessGuard, hcfg, hauth, hrl]
      · rcases hlim : rateLimiter maxRequests windowMs now r counts with ⟨d, c⟩
        cases d <;> simp [accessGuard, hcfg, hauth, hrl, hlim]
    · intro _ hrl
      rcases hlim : rateLimiter maxRequests windowMs now r counts with ⟨d, c⟩
      cases d <;> simp [accessGuard, hcfg, hauth, hrl, hlim]
  · simp only [Bool.not_eq_true] at hcfg
    refine ⟨?_, ?_, ?_⟩
    · simp [accessGuard, hcfg]
    · simp [accessGuard, hcfg]
    · intro hcfg2 _
      rw [hcfg] at hcfg2
      exact absurd hcfg2 (by decide)

/-- C4 amended witness: a health request under an exhausted anonymous window
is neither Unauthorized nor Forbidden, and with a fresh window the guard
equals the rate limiter's verdict. -/
theorem C4_health_skips_auth_only_witness :
    (accessGuard (some "k") true 100 60000 0
      { path := "/health", xApiKey := none, authorization := none,
        apiKeyQuery := none } []).1 ≠ GuardOutcome.unauthorized ∧
    accessGuard (some "k") true 100 60000 0
      { path := "/health", xApiKey := none, authorization := none,
        apiKeyQuery := none } [] =
      (GuardOutcome.proceed, [("anonymous", { count := 1, resetTime := 60000 })]) :=
  ⟨(C4_health_skips_auth_only (some "k") true 100 60000 0
      { path := "/health", xApiKey := none, authorization := none,
        apiKeyQuery := none } [] rfl).1,
   (C4_health_skips_auth_only (some "k") true 100 60000 0
      { path := "/health", xApiKey := none, authorization := none,
        apiKeyQuery := none } [] rfl).2.2 (by decide) rfl⟩

/-- C5 counterexample: with a connected stale pool, an error thrown by
`close()` propagates out of `ensureSqlConnection` — the acquire call fails
and the new connection is never opened, so the close is not best-effort. -/
theorem C5_close_error_propagates_counterexample :
    (ensureSqlConnection
      { tokenRes := Except.ok { token := "t2", expiresOn := 999999 },
        closeRes := Except.error "close failed", connectRes := Except.ok 7 } 0
      { pool := some { pid := 3, connected := true }, token := some "t1",
        expiry := some 1000 }).1 = Except.error "close failed" ∧
    NetCall.connectPool ∉
      (ensureSqlConnection
        { tokenRes := Except.ok { token := "t2", expiresOn := 999999 },
          closeRes := Except.error "close failed", connectRes := Except.ok 7 } 0
        { pool := some { pid := 3, connected := true }, token := some "t1",
          expiry := some 1000 }).2.2 :=
  ⟨rfl, by decide⟩

/-- C5 amended: on the refresh path with a fresh token, an old handle that
reports connected is closed before the new connection is opened, but the
close is not best-effort: a close error propagates and fails the acquire
call without any connect attempt; and an old handle that exists but does
not report connected is not closed at all. -/
theorem C5_close_before_connect_error_propagates (env : SeqEnv) (now : Int)
    (g : SqlGlobals) (p : PoolRec) (ti : TokenInfo)
    (hf : tokenFresh g now = false) (hp : g.pool = some p)
    (ht : env.tokenRes = Except.ok ti) :
    (p.connected = true → env.closeRes = Except.ok () →
       (ensureSqlConnection env now g).2.2 =
         [NetCall.acquireToken, NetCall.closePool p.pid, NetCall.connectPool]) ∧
    (∀ m, p.connected = true → env.closeRes = Except.error m →
       (ensureSqlConnection env now g).1 = Except.error m ∧
       NetCall.connectPool ∉ (ensureSqlConnection env now g).2.2) ∧
    (p.connected = false →
       ∀ q, NetCall.closePool q ∉ (ensureSqlConnection env now g).2.2) := by
  refine ⟨?_, ?_, ?_⟩
  · intro hc hclose
    cases hcr : env.connectRes with
    | error m => simp [ensureSqlConnection, hf, ht, hp, hc, hclose, finishConnect, hcr]
    | ok pid => simp [ensureSqlConnection, hf, ht, hp, hc, hclose, finishConnect, hcr]
  · intro m hc hclose
    simp [ensureSqlConnection, hf, ht, hp, hc, hclose]
  · intro hc q
    cases hcr : env.connectRes with
    | error m => simp [ensureSqlConnection, hf, ht, hp, hc, finishConnect, hcr]
    | ok pid => simp [ensureSqlConnection, hf, ht, hp, hc, finishConnect, hcr]

/-- C5 amended witness: concrete refreshes exercising the three arms. -/
theorem C5_close_before_connect_error_propagates_witness :
    (ensureSqlConnection
      { tokenRes := Except.ok { token := "t2", expiresOn := 999999 },
        closeRes := Except.ok (), connectRes := Except.ok 7 } 0
      { pool := some { pid := 3, connected := true }, token := some "t1",
        expiry := some 1000 }).2.2 =
      [NetCall.acquireToken, NetCall.closePool 3, NetCall.connectPool] ∧
    (ensureSqlConnection
      { tokenRes := Except.ok { token := "t2", expiresOn := 999999 },
        closeRes := Except.error "boom", connectRes := Except.ok 7 } 0
      { pool := some { pid := 3, connected := true }, token := some "t1",
        expiry := some 1000 }).1 = Except.error "boom" ∧
    (∀ q, NetCall.closePool q ∉
      (ensureSqlConnection
        { tokenRes := Except.ok { token := "t2", expiresOn := 999999 },
          closeRes := Except.ok (), connectRes := Except.ok 7 } 0
        { pool := some { pid := 3, connected := false }, token := some "t1",
          expiry := some 1000 }).2.2) :=
  ⟨(C5_close_before_connect_error_propagates
      { tokenRes := Except.ok { token := "t2", expiresOn := 999999 },
        closeRes := Except.ok (), connectRes := Except.ok 7 } 0
      { pool := some { pid := 3, connected := true }, token := some "t1",
        expiry := some 1000 } { pid := 3, connected := true }
      { token := "t2", expiresOn := 999999 } (by decide) rfl rfl).1 rfl rfl,
   ((C5_close_before_connect_error_propagates
      { tokenRes := Except.ok { token := "t2", expiresOn := 999999 },
        closeRes := Except.error "boom", connectRes := Except.ok 7 } 0
      { pool := some { pid := 3, connected := true }, token := some "t1",
        expiry := some 1000 } { pid := 3, connected := true }
      { token := "t2", expiresOn := 999999 } (by decide) rfl rfl).2.1 "boom" rfl rfl).1,
   (C5_close_before_connect_error_propagates
      { tokenRes := Except.ok { token := "t2", expiresOn := 999999 },
        closeRes := Except.ok (), connectRes := Except.ok 7 } 0
      { pool := some { pid := 3, connected := false }, token := some "t1",
        expiry := some 1000 } { pid := 3, connected := false }
      { token := "t2", expiresOn := 999999 } (by decide) rfl rfl).2.2 rfl⟩

/-- C6 counterexample: a request presenting its credential only through the
`apiKey` query parameter — one of the three accepted presentation channels,
as the credential check itself extracts it — is counted under the anonymous
key by the rate limiter. -/
theorem C6_rate_key_ignores_query_counterexample :
    requestKey { path := "/sse", xApiKey := none, authorization := none,
                 apiKeyQuery := some "secret" } = some "secret" ∧
    rlKey { path := "/sse", xApiKey := none, authorization := none,
            apiKeyQuery := some "secret" } = "anonymous" := by
  decide

/-- C6 amended: the rate-limiter key is the credential presented via the
`x-api-key` header, else the Bearer-stripped `Authorization` header; the
`apiKey` query parameter is ignored, so the anonymous key is used exactly
when neither header carries a truthy credential — even when the query
parameter presents one. -/
theorem C6_rate_key_headers_only (r : HttpReq) :
    (∀ q, rlKey { r with apiKeyQuery := q } = rlKey r) ∧
    (∀ s, r.xApiKey = some s → s ≠ "" → rlKey r = s) ∧
    (∀ s, jsTruthy r.xApiKey = false → r.authorization = some s →
       jsReplaceFirst s "Bearer " ≠ "" → rlKey r = jsReplaceFirst s "Bearer ") ∧
    (jsTruthy r.xApiKey = false →
       jsTruthy (r.authorization.map (fun s => jsReplaceFirst s "Bearer ")) = false →
       rlKey r = "anonymous") := by
  refine ⟨fun q => rfl, ?_, ?_, ?_⟩
  · intro s hx hs
    have hb : (s != "") = true := by simp [hs]
    simp [rlKey, jsOr, jsTruthy, hx, hb, hs]
  · intro s hx ha hs
    simp [rlKey, jsOr, hx, ha, hs]
  · intro hx ha
    cases hao : r.authorization with
    | none => simp [rlKey, jsOr, hx, hao]
    | some s =>
        rw [hao] at ha
        simp [jsTruthy] at ha
        simp [rlKey, jsOr, hx, hao, ha]

/-- C6 amended witness: the header key wins, the query parameter changes
nothing, and header-less requests are anonymous. -/
theorem C6_rate_key_headers_only_witness :
    rlKey { path := "/sse", xApiKey := some "k1", authorization := none,
            apiKeyQuery := some "q" } =
      rlKey { path := "/sse", xApiKey := some "k1", authorization := none,
              apiKeyQuery := none } ∧
    rlKey { path := "/sse", xApiKey := some "k1", authorization := none,
            apiKeyQuery := none } = "k1" ∧
    rlKey { path := "/sse", xApiKey := none, authorization := some "Bearer abc",
            apiKeyQuery := none } = "abc" ∧
    rlKey { path := "/sse", xApiKey := none, authorization := none,
            apiKeyQuery := some "secret" } = "anonymous" :=
  ⟨(C6_rate_key_headers_only
      { path := "/sse", xApiKey := some "k1", authorization := none,
        apiKeyQuery := none }).1 (some "q"),
   (C6_rate_key_headers_only
      { path := "/sse", xApiKey := some "k1", authorization := none,
        apiKeyQuery := none }).2.1 "k1" rfl (by decide),
   (C6_rate_key_headers_only
      { path := "/sse", xApiKey := none, authorization := some "Bearer abc",
        apiKeyQuery := none }).2.2.1 "Bearer abc" rfl rfl (by decide),
   (C6_rate_key_headers_only
      { path := "/sse", xApiKey := none, authorization := none,
        apiKeyQuery := some "secret" }).2.2.2 rfl rfl⟩

/-- C10: a refresh overwrites the token and expiry globals before closing
the old handle or opening the new one; when the connection open fails, the
call errors with the shared state holding the fresh token and expiry paired
with the previous (now closed, if it was connected) pool — the state is not
left unchanged on error. -/
theorem C10_refresh_partial_state_on_connect_failure (env : SeqEnv) (now : Int)
    (g : SqlGlobals) (ti : TokenInfo) (m : String)
    (hf : tokenFresh g now = false) (ht : env.tokenRes = Except.ok ti)
    (hclose : env.closeRes = Except.ok ()) (hc : env.connectRes = Except.error m) :
    (ensureSqlConnection env now g).1 = Except.error m ∧
    (ensureSqlConnection env now g).2.1.token = some ti.token ∧
    (ensureSqlConnection env now g).2.1.expiry = some ti.expiresOn ∧
    (ensureSqlConnection env now g).2.1.pool.map PoolRec.pid =
      g.pool.map PoolRec.pid ∧
    (g.token ≠ some ti.token → (ensureSqlConnection env now g).2.1 ≠ g) := by
  cases hgp : g.pool with
  | none =>
      refine ⟨?_, ?_, ?_, ?_, ?_⟩ <;>
        simp [ensureSqlConnection, hf, ht, hgp, finishConnect, hc]
      intro hne heq
      exact hne (by rw [← heq])
  | some p =>
      cases hpc : p.connected
      · refine ⟨?_, ?_, ?_, ?_, ?_⟩ <;>
          simp [ensureSqlConnection, hf, ht, hgp, hpc, finishConnect, hc]
        intro hne heq
        exact hne (by rw [← heq])
      · refine ⟨?_, ?_, ?_, ?_, ?_⟩ <;>
          simp [ensureSqlConnection, hf, ht, hgp, hpc, hclose, finishConnect, hc]
        intro hne heq
        exact hne (by rw [← heq])

/-- C10 witness: a concrete failed refresh leaves the fresh token and expiry
paired with the old, now closed, pool. -/
theorem C10_refresh_partial_state_on_connect_failure_witness :
    (ensureSqlConnection
      { tokenRes := Except.ok { token := "t2", expiresOn := 999999 },
        closeRes := Except.ok (), connectRes := Except.error "conn refused" } 0
      { pool := some { pid := 3, connected := true }, token := some "t1",
        expiry := some 1000 }).1 = Except.error "conn refused" ∧
    (ensureSqlConnection
      { tokenRes := Except.ok { token := "t2", expiresOn := 999999 },
        closeRes := Except.ok (), connectRes := Except.error "conn refused" } 0
      { pool := some { pid := 3, connected := true }, token := some "t1",
        expiry := some 1000 }).2.1.token = some "t2" ∧
    (ensureSqlConnection
      { tokenRes := Except.ok { token := "t2", expiresOn := 999999 },
        closeRes := Except.ok (), connectRes := Except.error "conn refused" } 0
      { pool := some { pid := 3, connected := true }, token := some "t1",
        expiry := some 1000 }).2.1 ≠
      { pool := some { pid := 3, connected := true }, token := some "t1",
        expiry := some 1000 } :=
  ⟨(C10_refresh_partial_state_on_connect_failure
      { tokenRes := Except.ok { token := "t2", expiresOn := 999999 },
        closeRes := Except.ok (), connectRes := Except.error "conn refused" } 0
      { pool := some { pid := 3, connected := true }, token := some "t1",
        expiry := some 1000 } { token := "t2", expiresOn := 999999 } "conn refused"
      (by decide) rfl rfl rfl).1,
   (C10_refresh_partial_state_on_connect_failure
      { tokenRes := Except.ok { token := "t2", expiresOn := 999999 },
        closeRes := Except.ok (), connectRes := Except.error "conn refused" } 0
      { pool := some { pid := 3, connected := true }, token := some "t1",
        expiry := some 1000 } { token := "t2", expiresOn := 999999 } "conn refused"
      (by decide) rfl rfl rfl).2.1,
   (C10_refresh_partial_state_on_connect_failure
      { tokenRes := Except.ok { token := "t2", expiresOn := 999999 },
        closeRes := Except.ok (), connectRes := Except.error "conn refused" } 0
      { pool := some { pid := 3, connected := true }, token := some "t1",
        expiry := some 1000 } { token := "t2", expiresOn := 999999 } "conn refused"
      (by decide) rfl rfl rfl).2.2.2.2 (by decide)⟩

/-- C3 counterexample: interleaved acquisition calls violate both conjuncts
of the claim.  First run: from an empty initial state, two calls alternating
at the await points both complete and leave two simultaneously live pool
objects.  Second run: over an existing connected pool with a stale token,
both calls pass the `globalSqlPool.connected` check before either close
resolves, so the same handle (pool id 0) has `close()` invoked on it twice
(the close log reads `[0, 0]`). -/
theorem C3_two_live_handles_counterexample :
    liveCount (run2 0 [true, false, true, false, true, false]
      ({ pool := none, token := none, expiry := none, pools := [], nextId := 0,
         closes := [] },
       { pc := TPc.start, env := { token := "tokA", expiresOn := 10000000 } },
       { pc := TPc.start, env := { token := "tokB", expiresOn := 10000000 } })).1 = 2 ∧
    (run2 0 [true, false, true, false, true, false]
      ({ pool := none, token := none, expiry := none, pools := [], nextId := 0,
         closes := [] },
       { pc := TPc.start, env := { token := "tokA", expiresOn := 10000000 } },
       { pc := TPc.start, env := { token := "tokB", expiresOn := 10000000 } })).2.1.pc =
      TPc.done ∧
    (run2 0 [true, false, true, false, true, false]
      ({ pool := none, token := none, expiry := none, pools := [], nextId := 0,
         closes := [] },
       { pc := TPc.start, env := { token := "tokA", expiresOn := 10000000 } },
       { pc := TPc.start, env := { token := "tokB", expiresOn := 10000000 } })).2.2.pc =
      TPc.done ∧
    (run2 0 [true, false, true, false, true, false, true, false]
      ({ pool := some 0, token := some "t1", expiry := some 1000,
         pools := [{ pid := 0, connected := true }], nextId := 1, closes := [] },
       { pc := TPc.start, env := { token := "tokA", expiresOn := 10000000 } },
       { pc := TPc.start, env := { token := "tokB", expiresOn := 10000000 } })).1.closes =
      [0, 0] ∧
    (run2 0 [true, false, true, false, true, false, true, false]
      ({ pool := some 0, token := some "t1", expiry := some 1000,
         pools := [{ pid := 0, connected := true }], nextId := 1, closes := [] },
       { pc := TPc.start, env := { token := "tokA", expiresOn := 10000000 } },
       { pc := TPc.start, env := { token := "tokB", expiresOn := 10000000 } })).2.1.pc =
      TPc.done := by
  decide

/-- C3 amended: in executions where acquisition calls do not interleave,
every step from an invariant-satisfying state preserves the invariant,
keeps at most one live handle (no two distinct simultaneously live pool
objects) and keeps the close log duplicate-free (no handle is ever closed
twice); under interleaved concurrent calls the code enforces neither —
two live handles can be created and the same handle can be closed twice. -/
theorem C3_single_live_handle_sequential (now : Int) (w : World) (t : Thread)
    (h : TInvP w t) :
    TInvP (stepThread now w t).1 (stepThread now w t).2 ∧
    (∀ p ∈ (stepThread now w t).1.pools, ∀ q ∈ (stepThread now w t).1.pools,
       p.connected = true → q.connected = true → p = q) ∧
    (stepThread now w t).1.closes.Nodup := by
  have hstep := stepThread_TInv now w t h
  exact ⟨hstep, WInvP_single_live _ hstep.1, hstep.2.1⟩

/-- C3 amended witness: a sequential acquisition step over an existing stale
connected pool keeps the invariant, a single live pool, and a
duplicate-free close log. -/
theorem C3_single_live_handle_sequential_witness :
    TInvP (stepThread 0
      { pool := some 0, token := some "t1", expiry := some 1000,
        pools := [{ pid := 0, connected := true }], nextId := 1, closes := [] }
      { pc := TPc.awaitToken, env := { token := "tokA", expiresOn := 10000000 } }).1
      (stepThread 0
      { pool := some 0, token := some "t1", expiry := some 1000,
        pools := [{ pid := 0, connected := true }], nextId := 1, closes := [] }
      { pc := TPc.awaitToken, env := { token := "tokA", expiresOn := 10000000 } }).2 ∧
    (∀ p ∈ (stepThread 0
      { pool := some 0, token := some "t1", expiry := some 1000,
        pools := [{ pid := 0, connected := true }], nextId := 1, closes := [] }
      { pc := TPc.awaitToken, env := { token := "tokA", expiresOn := 10000000 } }).1.pools,
      ∀ q ∈ (stepThread 0
      { pool := some 0, token := some "t1", expiry := some 1000,
        pools := [{ pid := 0, connected := true }], nextId := 1, closes := [] }
      { pc := TPc.awaitToken, env := { token := "tokA", expiresOn := 10000000 } }).1.pools,
        p.connected = true → q.connected = true → p = q) ∧
    (stepThread 0
      { pool := some 0, token := some "t1", expiry := some 1000,
        pools := [{ pid := 0, connected := true }], nextId := 1, closes := [] }
      { pc := TPc.awaitToken, env := { token := "tokA", expiresOn := 10000000 } }).1.closes.Nodup :=
  C3_single_live_handle_sequential 0
    { pool := some 0, token := some "t1", expiry := some 1000,
      pools := [{ pid := 0, connected := true }], nextId := 1, closes := [] }
    { pc := TPc.awaitToken, env := { token := "tokA", expiresOn := 10000000 } }
    ⟨⟨by simp, by simp, by simp⟩, by simp, by simp, by simp, trivial⟩

/-- C9: every error thrown inside the call-tool try-block — a
connection-acquire failure or a validation/execution error inside a Query
Executor — is caught and converted into an error-flagged result (the
handler is a total function into responses, so nothing escapes to the
transport or closes the session), and an unknown operation name yields an
error-flagged result rather than a transport fault. -/
theorem C9_router_error_boundary (env : CallEnv) (name : String)
    (args : ToolArgs) :
    (∀ m, callToolBody env name args = Except.error m →
       handleCallTool env name args = { text := "Error: " ++ m, isError := true }) ∧
    (∀ m, env.ensure = Except.error m →
       handleCallTool env name args = { text := "Error: " ++ m, isError := true }) ∧
    (env.ensure = Except.ok () → name ≠ "read_data" → name ≠ "list_table" →
       name ≠ "describe_table" →
       handleCallTool env name args =
         { text := "Unknown tool: " ++ name, isError := true }) ∧
    (env.ensure = Except.ok () → ∀ s, args.query = JsVal.strv s →
       jsStartsWith (jsToUpper (jsTrim s)) "SELECT" = false → s ≠ "" →
       handleCallTool env "read_data" args =
         { text := "Error: Only SELECT queries are allowed", isError := true }) := by
  refine ⟨?_, ?_, ?_, ?_⟩
  · intro m hb
    simp [handleCallTool, hb]
  · intro m he
    simp [handleCallTool, callToolBody, he]
  · intro he h1 h2 h3
    simp [handleCallTool, callToolBody, he, h1, h2, h3]
  · intro he s hq hsel hs
    have hv : validateReadQuery args.query =
        ReadDataOutcome.validationError "Only SELECT queries are allowed" := by
      have hb : (s != "") = true := by simp [hs]
      simp [validateReadQuery, hq, jsTruthyVal, isStringVal, hb, hsel]
    simp [handleCallTool, callToolBody, he, executeReadDataE, hv, Except.map]

/-- C9 witness: a failed connection acquire, a rejected non-SELECT query and
an unknown tool name each produce an error-flagged result on a concrete
environment. -/
theorem C9_router_error_boundary_witness :
    handleCallTool
      { ensure := Except.error "auth down", runQuery := fun _ => Except.ok [],
        runDescribe := fun _ => Except.ok [] } "read_data"
      { query := JsVal.strv "SELECT 1", tableName := JsVal.undef,
        parameters := none } =
      { text := "Error: auth down", isError := true } ∧
    handleCallTool
      { ensure := Except.ok (), runQuery := fun _ => Except.ok [],
        runDescribe := fun _ => Except.ok [] } "bogus"
      { query := JsVal.undef, tableName := JsVal.undef, parameters := none } =
      { text := "Unknown tool: bogus", isError := true } ∧
    handleCallTool
      { ensure := Except.ok (), runQuery := fun _ => Except.ok [],
        runDescribe := fun _ => Except.ok [] } "read_data"
      { query := JsVal.strv "DROP TABLE t", tableName := JsVal.undef,
        parameters := none } =
      { text := "Error: Only SELECT queries are allowed", isError := true } :=
  ⟨(C9_router_error_boundary
      { ensure := Except.error "auth down", runQuery := fun _ => Except.ok [],
        runDescribe := fun _ => Except.ok [] } "read_data"
      { query := JsVal.strv "SELECT 1", tableName := JsVal.undef,
        parameters := none }).2.1 "auth down" rfl,
   (C9_router_error_boundary
      { ensure := Except.ok (), runQuery := fun _ => Except.ok [],
        runDescribe := fun _ => Except.ok [] } "bogus"
      { query := JsVal.undef, tableName := JsVal.undef, parameters := none }).2.2.1
     rfl (by decide) (by decide) (by decide),
   (C9_router_error_boundary
      { ensure := Except.ok (), runQuery := fun _ => Except.ok [],
        runDescribe := fun _ => Except.ok [] } "read_data"
      { query := JsVal.strv "DROP TABLE t", tableName := JsVal.undef,
        parameters := none }).2.2.2 rfl "DROP TABLE t" rfl (by decide) (by decide)⟩
